import Mathlib

/-!
Verification of the fault-tolerant workflow engine of the Car-Dream repository.

The development shallowly embeds the core components named by the spec:

* `CircuitBreaker` — `src/services/carla-runner/error_handler.py`, class
  `CircuitBreaker` (`call`, `_should_attempt_reset`, `_on_success`, `_on_failure`).
* `ErrorHandler` (recovery dispatcher) — same file, class `ErrorHandler`
  (`handle_error`, `_should_attempt_recovery`, `_increment_recovery_attempt`,
  the `recovery_strategies` table) together with `StateManager.record_error`
  from `src/services/carla-runner/state_manager.py`.
* `StateManager.restore_checkpoint` — `src/services/carla-runner/state_manager.py`.
* `WorkflowOrchestrator` — `src/services/orchestrator/src/services/workflow_orchestrator.py`
  (`execute_experiment_workflow`, the six phase methods, `_run_simulation_loop`,
  `_validate_experiment_config`, `_handle_phase_error`, `_handle_workflow_failure`,
  `cancel_workflow`).

External collaborators (service client, database, pub/sub, wall clock) are
modelled as oracles: an `Env` structure fixes the outcome of every external
call, and the orchestrator records every externally visible action in an
ordered `Effect` trace.  Machine time is modelled as `Nat` seconds.
-/

namespace CarDream

/-! ## Circuit breaker (error_handler.py, class CircuitBreaker) -/

/-- The three breaker states, the string field `state` of the Python class
(`"closed"`, `"open"`, `"half-open"`). -/
inductive CBState
  | closed
  | opened
  | halfOpen
deriving DecidableEq, Repr

/-- State of `CircuitBreaker.__init__`: failure threshold, cooldown
(`timeout`), consecutive-failure counter, time of last failure, state. -/
structure CircuitBreaker where
  failure_threshold : Nat
  timeout : Nat
  failure_count : Nat
  last_failure_time : Option Nat
  state : CBState
deriving DecidableEq, Repr

/-- A freshly constructed breaker (`failure_count = 0`, no recorded failure,
closed), as built by `CircuitBreaker.__init__`. -/
def CircuitBreaker.fresh (threshold cooldown : Nat) : CircuitBreaker :=
  ⟨threshold, cooldown, 0, none, .closed⟩

/-- `CircuitBreaker._should_attempt_reset`: true when there is no recorded
failure, or when `now - last_failure_time ≥ timeout`. -/
def CircuitBreaker.shouldAttemptReset (cb : CircuitBreaker) (now : Nat) : Bool :=
  match cb.last_failure_time with
  | none => true
  | some t => cb.timeout ≤ now - t

/-- `CircuitBreaker._on_success`: reset the counter and close the breaker. -/
def CircuitBreaker.onSuccess (cb : CircuitBreaker) : CircuitBreaker :=
  { cb with failure_count := 0, state := .closed }

/-- `CircuitBreaker._on_failure`: bump the counter, stamp the failure time,
and open the breaker once the threshold is reached. -/
def CircuitBreaker.onFailure (cb : CircuitBreaker) (now : Nat) : CircuitBreaker :=
  { cb with
      failure_count := cb.failure_count + 1
      last_failure_time := some now
      state := if cb.failure_threshold ≤ cb.failure_count + 1 then .opened else cb.state }

/-- Result of one guarded call: the wrapped function's value propagated
(`ok`), the wrapped function's exception re-raised (`depError`), or the
`Exception("Circuit breaker is open")` raised without calling the function
(`circuitOpen`). -/
inductive CBResult
  | ok
  | depError
  | circuitOpen
deriving DecidableEq, Repr

/-- Outcome of `CircuitBreaker.call`: the result, whether the guarded
dependency function was actually invoked, and the breaker afterwards. -/
structure CBCall where
  result : CBResult
  invoked : Bool
  cb : CircuitBreaker
deriving DecidableEq, Repr

/-- `CircuitBreaker.call`, with the dependency's behaviour abstracted to the
boolean `depSucceeds` and the wall clock to `now`.  Mirrors the Python
control flow: an open breaker either moves to half-open (cooldown elapsed)
and lets the call through, or rejects without invoking the function; an
invoked call then runs `_on_success` or `_on_failure`. -/
def CircuitBreaker.call (cb : CircuitBreaker) (now : Nat) (depSucceeds : Bool) : CBCall :=
  let gate : Option CircuitBreaker :=
    if cb.state = .opened then
      if cb.shouldAttemptReset now then some { cb with state := .halfOpen } else none
    else
      some cb
  match gate with
  | none => ⟨.circuitOpen, false, cb⟩
  | some cb1 =>
    if depSucceeds then ⟨.ok, true, cb1.onSuccess⟩
    else ⟨.depError, true, cb1.onFailure now⟩

/-- Fold a sequence of failing calls (at the given times) through the
breaker. -/
def CircuitBreaker.failCalls (cb : CircuitBreaker) (times : List Nat) : CircuitBreaker :=
  times.foldl (fun c t => (c.call t false).cb) cb

/-- Reachability invariant of the breaker: away from `closed` the counter has
reached the threshold and a failure time is recorded. -/
def CBInv (cb : CircuitBreaker) : Prop :=
  cb.state ≠ .closed →
    cb.failure_threshold ≤ cb.failure_count ∧ cb.last_failure_time ≠ none

theorem cbInv_fresh (threshold cooldown : Nat) : CBInv (CircuitBreaker.fresh threshold cooldown) := by
  intro h
  simp [CircuitBreaker.fresh] at h

theorem cb_call_not_opened (cb : CircuitBreaker) (now : Nat) (d : Bool)
    (h : cb.state ≠ .opened) :
    cb.call now d =
      if d then ⟨.ok, true, cb.onSuccess⟩ else ⟨.depError, true, cb.onFailure now⟩ := by
  simp [CircuitBreaker.call, h]

theorem cb_call_open_cold (cb : CircuitBreaker) (now : Nat) (d : Bool)
    (h : cb.state = .opened) (hr : cb.shouldAttemptReset now = false) :
    cb.call now d = ⟨.circuitOpen, false, cb⟩ := by
  simp [CircuitBreaker.call, h, hr]

theorem cb_call_open_trial (cb : CircuitBreaker) (now : Nat) (d : Bool)
    (h : cb.state = .opened) (hr : cb.shouldAttemptReset now = true) :
    cb.call now d =
      if d then ⟨.ok, true, ({ cb with state := .halfOpen } : CircuitBreaker).onSuccess⟩
      else ⟨.depError, true, ({ cb with state := .halfOpen } : CircuitBreaker).onFailure now⟩ := by
  simp [CircuitBreaker.call, h, hr]

theorem cbInv_onSuccess (cb : CircuitBreaker) : CBInv cb.onSuccess := by
  intro h
  simp [CircuitBreaker.onSuccess] at h

theorem cbInv_onFailure (cb : CircuitBreaker) (now : Nat)
    (h : cb.state ≠ .closed → cb.failure_threshold ≤ cb.failure_count) :
    CBInv (cb.onFailure now) := by
  intro hne
  refine ⟨?_, by simp [CircuitBreaker.onFailure]⟩
  show cb.failure_threshold ≤ cb.failure_count + 1
  by_cases hth : cb.failure_threshold ≤ cb.failure_count + 1
  · exact hth
  · exfalso
    apply hth
    apply Nat.le_succ_of_le
    apply h
    intro hcl
    apply hne
    simp [CircuitBreaker.onFailure, hth, hcl]

theorem failCalls_opens : ∀ (times : List Nat) (cb : CircuitBreaker),
    cb.state = .closed →
    cb.failure_count + times.length = cb.failure_threshold →
    times ≠ [] →
    (cb.failCalls times).state = .opened ∧
    (cb.failCalls times).failure_count = cb.failure_threshold := by
  intro times
  induction times with
  | nil => intro cb _ _ h3; exact absurd rfl h3
  | cons time rest ih =>
    intro cb hcl hcount _
    have hstep : cb.failCalls (time :: rest) = ((cb.call time false).cb).failCalls rest := rfl
    have hcall : (cb.call time false).cb = cb.onFailure time := by
      rw [cb_call_not_opened cb time false (by simp [hcl])]
      simp
    cases rest with
    | nil =>
      have hceq : cb.failure_count + 1 = cb.failure_threshold := by
        simpa using hcount
      have hth : cb.failure_threshold ≤ cb.failure_count + 1 := by omega
      rw [hstep, hcall]
      refine ⟨by simp [CircuitBreaker.failCalls, CircuitBreaker.onFailure, hth], ?_⟩
      simp [CircuitBreaker.failCalls, CircuitBreaker.onFailure]
      omega
    | cons t2 rest2 =>
      have hlt : ¬ cb.failure_threshold ≤ cb.failure_count + 1 := by
        simp at hcount
        omega
      rw [hstep, hcall]
      have h1 : (cb.onFailure time).state = .closed := by
        simp [CircuitBreaker.onFailure, hlt, hcl]
      have h2 : (cb.onFailure time).failure_count + (t2 :: rest2).length =
          (cb.onFailure time).failure_threshold := by
        simp [CircuitBreaker.onFailure]
        simp at hcount
        omega
      have h3 := ih (cb.onFailure time) h1 h2 (by simp)
      refine ⟨h3.1, ?_⟩
      rw [h3.2]
      simp [CircuitBreaker.onFailure]

theorem cbInv_call (cb : CircuitBreaker) (now : Nat) (d : Bool) (h : CBInv cb) :
    CBInv (cb.call now d).cb := by
  by_cases hop : cb.state = .opened
  · by_cases hr : cb.shouldAttemptReset now = true
    · rw [cb_call_open_trial cb now d hop hr]
      cases d
      · simpa using cbInv_onFailure { cb with state := .halfOpen } now
          (fun _ => (h (by simp [hop])).1)
      · simpa using cbInv_onSuccess { cb with state := .halfOpen }
    · rw [cb_call_open_cold cb now d hop (by simpa using hr)]
      exact h
  · rw [cb_call_not_opened cb now d hop]
    cases d
    · simp only [Bool.false_eq_true, if_false]
      exact cbInv_onFailure cb now (fun hne => (h hne).1)
    · simp only [if_true]
      exact cbInv_onSuccess cb

/-- C3: the circuit breaker obeys the stated transition rules: after
`failure_threshold` consecutive failures the breaker is Open; while Open and
before the cooldown the next call is rejected with the circuit-open error
without invoking the dependency and without changing the breaker; once the
cooldown has elapsed since the last failure exactly one trial call is let
through (the state after it is Closed or Open, never HalfOpen, so no second
trial can slip past the gate); a successful call in any state resets the
failure counter to zero and closes the breaker; and a failed trial while
HalfOpen reopens the breaker and restamps the failure time. -/
theorem C3_circuit_breaker (cb : CircuitBreaker) (now t : Nat) (d : Bool) (hInv : CBInv cb) :
    (∀ (T cooldown : Nat) (times : List Nat),
        0 < T → times.length = T →
        ((CircuitBreaker.fresh T cooldown).failCalls times).state = .opened ∧
        ((CircuitBreaker.fresh T cooldown).failCalls times).failure_count = T) ∧
    (cb.state = .opened → cb.last_failure_time = some t → now - t < cb.timeout →
        cb.call now d = ⟨.circuitOpen, false, cb⟩) ∧
    (cb.state = .opened → cb.last_failure_time = some t → cb.timeout ≤ now - t →
        (cb.call now d).invoked = true ∧
        (cb.call now d).cb.state = (if d then .closed else .opened)) ∧
    ((cb.call now d).result = .ok →
        (cb.call now d).cb.failure_count = 0 ∧ (cb.call now d).cb.state = .closed) ∧
    (cb.state = .halfOpen →
        (cb.call now false).cb.state = .opened ∧
        (cb.call now false).cb.last_failure_time = some now) := by
  refine ⟨?_, ?_, ?_, ?_, ?_⟩
  · intro T cooldown times hT hlen
    have := failCalls_opens times (CircuitBreaker.fresh T cooldown)
      (by simp [CircuitBreaker.fresh]) (by simp [CircuitBreaker.fresh, hlen])
      (by intro hnil; rw [hnil] at hlen; simp at hlen; omega)
    simpa [CircuitBreaker.fresh] using this
  · intro hop hlast hcold
    have hr : cb.shouldAttemptReset now = false := by
      simp [CircuitBreaker.shouldAttemptReset, hlast]
      omega
    exact cb_call_open_cold cb now d hop hr
  · intro hop hlast hwarm
    have hr : cb.shouldAttemptReset now = true := by
      simp [CircuitBreaker.shouldAttemptReset, hlast, hwarm]
    rw [cb_call_open_trial cb now d hop hr]
    have hth : cb.failure_threshold ≤ cb.failure_count :=
      (hInv (by simp [hop])).1
    cases d
    · exact ⟨by simp, by simp [CircuitBreaker.onFailure, Nat.le_succ_of_le hth]⟩
    · simp [CircuitBreaker.onSuccess]
  · intro hok
    by_cases hop : cb.state = .opened
    · by_cases hr : cb.shouldAttemptReset now = true
      · rw [cb_call_open_trial cb now d hop hr] at hok ⊢
        cases d
        · simp at hok
        · simp [CircuitBreaker.onSuccess]
      · rw [cb_call_open_cold cb now d hop (by simpa using hr)] at hok
        simp at hok
    · rw [cb_call_not_opened cb now d hop] at hok ⊢
      cases d
      · simp at hok
      · simp [CircuitBreaker.onSuccess]
  · intro hho
    rw [cb_call_not_opened cb now false (by simp [hho])]
    have hth : cb.failure_threshold ≤ cb.failure_count :=
      (hInv (by simp [hho])).1
    exact ⟨by simp [CircuitBreaker.onFailure, Nat.le_succ_of_le hth],
      by simp [CircuitBreaker.onFailure]⟩

/-- Concrete instantiation of `C3_circuit_breaker`: a breaker with threshold 2
and cooldown 60 that opened at time 6 rejects a call at time 7 without
invoking the dependency, lets a trial through at time 66, and a breaker
built by two consecutive failures from fresh is open. -/
theorem C3_circuit_breaker_witness :
    ((CircuitBreaker.fresh 2 60).failCalls [5, 6]).state = .opened ∧
    (⟨2, 60, 2, some 6, .opened⟩ : CircuitBreaker).call 7 true =
      ⟨.circuitOpen, false, ⟨2, 60, 2, some 6, .opened⟩⟩ ∧
    ((⟨2, 60, 2, some 6, .opened⟩ : CircuitBreaker).call 66 false).cb.state = .opened := by
  have h7 := C3_circuit_breaker ⟨2, 60, 2, some 6, .opened⟩ 7 6 true
    (fun _ => ⟨Nat.le_refl 2, by simp⟩)
  have h66 := C3_circuit_breaker ⟨2, 60, 2, some 6, .opened⟩ 66 6 false
    (fun _ => ⟨Nat.le_refl 2, by simp⟩)
  refine ⟨?_, ?_, ?_⟩
  · exact (h7.1 2 60 [5, 6] (by decide) (by decide)).1
  · exact h7.2.1 rfl rfl (by decide)
  · simpa using (h66.2.2.1 rfl rfl (by decide)).2

/-! ## Recovery dispatcher (error_handler.py, class ErrorHandler, plus
StateManager.record_error from state_manager.py) -/

/-- The error taxonomy, enum `ErrorType` of error_handler.py. -/
inductive ErrorType
  | carla_crash
  | carla_timeout
  | memory_exhaustion
  | gpu_error
  | network_error
  | simulation_error
  | resource_exhaustion
deriving DecidableEq, Repr

/-- Enum `RecoveryStrategy` of error_handler.py. -/
inductive RecoveryStrategy
  | restart_carla
  | restart_simulation
  | restore_checkpoint
  | scale_down
  | wait_and_retry
  | fail_gracefully
deriving DecidableEq, Repr

/-- Dataclass `RecoveryAction` of error_handler.py. -/
structure RecoveryAction where
  strategy : RecoveryStrategy
  max_attempts : Nat
  delay_seconds : Nat
  timeout_seconds : Nat
deriving DecidableEq, Repr

/-- The `self.recovery_strategies` table built in `ErrorHandler.__init__`,
with the exact per-kind budgets of the source. -/
def recovery_strategies : ErrorType → RecoveryAction
  | .carla_crash => ⟨.restart_carla, 3, 10, 120⟩
  | .carla_timeout => ⟨.wait_and_retry, 2, 5, 30⟩
  | .memory_exhaustion => ⟨.scale_down, 1, 0, 60⟩
  | .gpu_error => ⟨.restart_carla, 2, 15, 180⟩
  | .network_error => ⟨.wait_and_retry, 3, 2, 10⟩
  | .simulation_error => ⟨.restore_checkpoint, 2, 1, 30⟩
  | .resource_exhaustion => ⟨.scale_down, 1, 0, 30⟩

/-- Dataclass `ErrorRecord` of state_manager.py. -/
structure ErrorRecord where
  timestamp : Nat
  simulation_id : String
  error_type : ErrorType
  error_message : String
  stack_trace : String
  recovery_attempted : Bool
  recovery_successful : Bool
deriving DecidableEq, Repr

/-- The mutable bookkeeping shared by `ErrorHandler` and `StateManager`:
the append-only `error_history` list and the per-(simulation, kind)
`recovery_attempts` counters (the nested Python dict flattened to an
association list keyed by the pair). -/
structure ErrorHandlerState where
  error_history : List ErrorRecord
  recovery_attempts : List ((String × ErrorType) × Nat)
deriving DecidableEq, Repr

/-- A fresh handler: empty history, empty counters. -/
def handlerInit : ErrorHandlerState := ⟨[], []⟩

/-- Counter lookup, defaulting to 0 (`self.recovery_attempts[sid].get(et, 0)`). -/
def getAttempts (m : List ((String × ErrorType) × Nat)) (sid : String) (et : ErrorType) : Nat :=
  match m with
  | [] => 0
  | (k, n) :: rest => if k = (sid, et) then n else getAttempts rest sid et

/-- Counter store (`self.recovery_attempts[sid][et] = n`). -/
def setAttempts (m : List ((String × ErrorType) × Nat)) (sid : String) (et : ErrorType)
    (n : Nat) : List ((String × ErrorType) × Nat) :=
  match m with
  | [] => [((sid, et), n)]
  | (k, v) :: rest =>
    if k = (sid, et) then (k, n) :: rest else (k, v) :: setAttempts rest sid et n

/-- `ErrorHandler._should_attempt_recovery`: attempts so far strictly below
the kind's configured `max_attempts`. -/
def should_attempt_recovery (s : ErrorHandlerState) (sid : String) (et : ErrorType) : Bool :=
  decide (getAttempts s.recovery_attempts sid et < (recovery_strategies et).max_attempts)

/-- `StateManager.record_error`: append one `ErrorRecord` with
`recovery_attempted = False`, `recovery_successful = False`. -/
def record_error (s : ErrorHandlerState) (now : Nat) (sid : String) (et : ErrorType)
    (msg stack : String) : ErrorHandlerState :=
  { s with error_history := s.error_history ++ [⟨now, sid, et, msg, stack, false, false⟩] }

/-- Update of the last history entry (`self.state_manager.error_history[-1]`),
guarded by the non-emptiness check of `handle_error`. -/
def setLast (l : List ErrorRecord) (f : ErrorRecord → ErrorRecord) : List ErrorRecord :=
  match l.getLast? with
  | none => l
  | some r => l.dropLast ++ [f r]

/-- Outcome of `ErrorHandler.handle_error`: returned boolean, whether the
mapped strategy was executed, and the handler state afterwards. -/
structure HandleErrorResult where
  success : Bool
  strategy_executed : Bool
  state : ErrorHandlerState
deriving DecidableEq, Repr

/-- `ErrorHandler.handle_error`, with the recovery strategy's own outcome
abstracted to `strategySucceeds` (the strategies call external processes).
Mirrors the source order: record the error, check
`_should_attempt_recovery`, look up the (total) strategy table, increment
the attempt counter, execute the strategy, then write the strategy outcome
back onto the last history record. -/
def handle_error (s : ErrorHandlerState) (now : Nat) (sid : String) (et : ErrorType)
    (msg stack : String) (strategySucceeds : Bool) : HandleErrorResult :=
  let s1 := record_error s now sid et msg stack
  if should_attempt_recovery s1 sid et then
    let n := getAttempts s1.recovery_attempts sid et + 1
    let s2 := { s1 with recovery_attempts := setAttempts s1.recovery_attempts sid et n }
    let f := fun (r : ErrorRecord) =>
      { r with recovery_attempted := true, recovery_successful := strategySucceeds }
    let s3 := { s2 with error_history := setLast s2.error_history f }
    ⟨strategySucceeds, true, s3⟩
  else
    ⟨false, false, s1⟩

/-- One dispatcher invocation, for building call traces. -/
structure HECall where
  now : Nat
  sid : String
  et : ErrorType
  msg : String
  stack : String
  strategySucceeds : Bool
deriving DecidableEq, Repr

/-- Fold a sequence of `handle_error` calls through the handler state. -/
def runHandler (s : ErrorHandlerState) : List HECall → ErrorHandlerState
  | [] => s
  | c :: cs => runHandler (handle_error s c.now c.sid c.et c.msg c.stack c.strategySucceeds).state cs

theorem getAttempts_setAttempts_same (m : List ((String × ErrorType) × Nat))
    (sid : String) (et : ErrorType) (n : Nat) :
    getAttempts (setAttempts m sid et n) sid et = n := by
  induction m with
  | nil => simp [setAttempts, getAttempts]
  | cons kv rest ih =>
    obtain ⟨k, v⟩ := kv
    by_cases hk : k = (sid, et)
    · simp [setAttempts, getAttempts, hk]
    · simp [setAttempts, getAttempts, hk, ih]

theorem getAttempts_setAttempts_other (m : List ((String × ErrorType) × Nat))
    (sid sid2 : String) (et et2 : ErrorType) (n : Nat)
    (h : (sid2, et2) ≠ (sid, et)) :
    getAttempts (setAttempts m sid et n) sid2 et2 = getAttempts m sid2 et2 := by
  induction m with
  | nil => simp [setAttempts, getAttempts, Ne.symm h]
  | cons kv rest ih =>
    obtain ⟨k, v⟩ := kv
    by_cases hk : k = (sid, et)
    · subst hk
      simp [setAttempts, getAttempts, Ne.symm h]
    · simp [setAttempts, getAttempts, hk, ih]

theorem handle_error_attempts_cases (s : ErrorHandlerState) (now : Nat) (sid : String)
    (et : ErrorType) (msg stack : String) (b : Bool) :
    (handle_error s now sid et msg stack b).state.recovery_attempts = s.recovery_attempts ∨
    (getAttempts s.recovery_attempts sid et < (recovery_strategies et).max_attempts ∧
      (handle_error s now sid et msg stack b).state.recovery_attempts =
        setAttempts s.recovery_attempts sid et (getAttempts s.recovery_attempts sid et + 1)) := by
  by_cases h : getAttempts s.recovery_attempts sid et < (recovery_strategies et).max_attempts
  · right
    exact ⟨h, by simp [handle_error, record_error, should_attempt_recovery, h]⟩
  · left
    simp [handle_error, record_error, should_attempt_recovery, h]

theorem runHandler_attempts_bounded : ∀ (calls : List HECall) (s : ErrorHandlerState),
    (∀ sid et, getAttempts s.recovery_attempts sid et ≤ (recovery_strategies et).max_attempts) →
    ∀ sid et, getAttempts (runHandler s calls).recovery_attempts sid et ≤
      (recovery_strategies et).max_attempts := by
  intro calls
  induction calls with
  | nil => intro s h sid et; exact h sid et
  | cons c cs ih =>
    intro s h sid et
    apply ih
    intro sid2 et2
    rcases handle_error_attempts_cases s c.now c.sid c.et c.msg c.stack c.strategySucceeds with
      hsame | ⟨hlt, hset⟩
    · rw [hsame]; exact h sid2 et2
    · rw [hset]
      by_cases hk : (sid2, et2) = (c.sid, c.et)
      · obtain ⟨h1, h2⟩ := Prod.mk.injEq .. ▸ hk
        subst h1; subst h2
        rw [getAttempts_setAttempts_same]
        omega
      · rw [getAttempts_setAttempts_other _ _ _ _ _ _ hk]
        exact h sid2 et2

/-- C4: for every (experiment id, error kind) pair the recovery-attempt
counter never exceeds that kind's configured `max_attempts` (over any
sequence of dispatcher calls starting from a fresh handler), and a
`handle_error` call made when the counter has already reached
`max_attempts` returns failure without executing the mapped recovery
strategy and without touching the counters (it still records the error). -/
theorem C4_recovery_attempts_bounded (calls : List HECall)
    (s : ErrorHandlerState) (now : Nat) (sid : String) (et : ErrorType)
    (msg stack : String) (b : Bool)
    (hmax : (recovery_strategies et).max_attempts ≤ getAttempts s.recovery_attempts sid et) :
    (∀ sid2 et2, getAttempts (runHandler handlerInit calls).recovery_attempts sid2 et2 ≤
        (recovery_strategies et2).max_attempts) ∧
    (handle_error s now sid et msg stack b).success = false ∧
    (handle_error s now sid et msg stack b).strategy_executed = false ∧
    (handle_error s now sid et msg stack b).state.recovery_attempts = s.recovery_attempts ∧
    (handle_error s now sid et msg stack b).state.error_history =
      s.error_history ++ [⟨now, sid, et, msg, stack, false, false⟩] := by
  have hno : ¬ getAttempts s.recovery_attempts sid et < (recovery_strategies et).max_attempts := by
    omega
  refine ⟨?_, ?_, ?_, ?_, ?_⟩
  · exact runHandler_attempts_bounded calls handlerInit (by intro sid2 et2; simp [handlerInit, getAttempts])
  · simp [handle_error, record_error, should_attempt_recovery, hno]
  · simp [handle_error, record_error, should_attempt_recovery, hno]
  · simp [handle_error, record_error, should_attempt_recovery, hno]
  · simp [handle_error, record_error, should_attempt_recovery, hno]

/-- Concrete instantiation of `C4_recovery_attempts_bounded`: a handler whose
(e1, memory_exhaustion) counter already reads 1 (the configured maximum)
refuses a further recovery attempt. -/
theorem C4_recovery_attempts_bounded_witness :
    (handle_error ⟨[], [(("e1", .memory_exhaustion), 1)]⟩ 0 "e1" .memory_exhaustion
        "oom" "" true).success = false ∧
    (handle_error ⟨[], [(("e1", .memory_exhaustion), 1)]⟩ 0 "e1" .memory_exhaustion
        "oom" "" true).strategy_executed = false := by
  have h := C4_recovery_attempts_bounded [] ⟨[], [(("e1", .memory_exhaustion), 1)]⟩
    0 "e1" .memory_exhaustion "oom" "" true (by simp [getAttempts, recovery_strategies])
  exact ⟨h.2.1, h.2.2.1⟩

theorem setLast_concat (xs : List ErrorRecord) (r : ErrorRecord)
    (f : ErrorRecord → ErrorRecord) :
    setLast (xs ++ [r]) f = xs ++ [f r] := by
  simp [setLast]

/-- C6: every call to `handle_error` appends exactly one `ErrorRecord` to
the error log, and when the mapped recovery strategy is executed its own
success or failure is recorded back onto that same record (fields
`recovery_attempted` and `recovery_successful`) before the dispatcher
returns; the returned boolean is the strategy's own outcome. -/
theorem C6_one_error_record (s : ErrorHandlerState) (now : Nat) (sid : String)
    (et : ErrorType) (msg stack : String) (b : Bool) :
    (handle_error s now sid et msg stack b).state.error_history =
      s.error_history ++
        [⟨now, sid, et, msg, stack,
          (handle_error s now sid et msg stack b).strategy_executed,
          (handle_error s now sid et msg stack b).strategy_executed && b⟩] ∧
    ((handle_error s now sid et msg stack b).strategy_executed = true →
      (handle_error s now sid et msg stack b).success = b) := by
  by_cases h : getAttempts s.recovery_attempts sid et < (recovery_strategies et).max_attempts
  · constructor
    · simp [handle_error, record_error, should_attempt_recovery, h, setLast_concat]
    · intro _
      simp [handle_error, record_error, should_attempt_recovery, h]
  · constructor
    · simp [handle_error, record_error, should_attempt_recovery, h]
    · intro hx
      exfalso
      revert hx
      simp [handle_error, record_error, should_attempt_recovery, h]

/-! ## Checkpoint store (state_manager.py, class StateManager) -/

/-- A carla.Location (x, y, z coordinates; numeric values kept abstract as
integers — restore copies them verbatim, never computes with them). -/
structure Location where
  x : Int
  y : Int
  z : Int
deriving DecidableEq, Repr

/-- A carla.Rotation (pitch, yaw, roll). -/
structure Rotation where
  pitch : Int
  yaw : Int
  roll : Int
deriving DecidableEq, Repr

/-- A carla.Transform: pose of an actor. -/
structure Transform where
  location : Location
  rotation : Rotation
deriving DecidableEq, Repr

/-- carla.WeatherParameters, restricted to the four fields the checkpoint
stores. -/
structure WeatherParameters where
  cloudiness : Int
  precipitation : Int
  sun_altitude_angle : Int
  wind_intensity : Int
deriving DecidableEq, Repr

/-- Dataclass `SimulationCheckpoint` of state_manager.py.  The physics,
world, traffic and sensor payloads are opaque key/value data that
`restore_checkpoint` never reads; they are kept as association lists. -/
structure SimulationCheckpoint where
  simulation_id : String
  timestamp : Nat
  vehicle_transform : Transform
  vehicle_physics : List (String × Int)
  world_state : List (String × Int)
  weather_conditions : WeatherParameters
  traffic_state : List (String × Int)
  sensor_configs : List (String × Int)
deriving DecidableEq, Repr

/-- A spawned carla actor: blueprint plus pose. -/
structure Actor where
  blueprint : String
  transform : Transform
deriving DecidableEq, Repr

/-- The simulated world as far as `restore_checkpoint` touches it: the
set of spawned actors and the current weather. -/
structure World where
  actors : List Actor
  weather : WeatherParameters
deriving DecidableEq, Repr

/-- `world.spawn_actor(vehicle_bp, transform)`: adds one actor at the given
pose and returns it. -/
def World.spawn_actor (w : World) (bp : String) (t : Transform) : World × Actor :=
  let a : Actor := ⟨bp, t⟩
  ({ w with actors := w.actors ++ [a] }, a)

/-- Lookup in `self.checkpoints` (dict keyed by simulation id; one latest
checkpoint per id). -/
def lookupCheckpoint : List (String × SimulationCheckpoint) → String → Option SimulationCheckpoint
  | [], _ => none
  | (k, c) :: rest, sid => if k = sid then some c else lookupCheckpoint rest sid

/-- `StateManager.restore_checkpoint`: `None` when no checkpoint is stored
for the id; otherwise rebuild the location and rotation from the stored
values, spawn the vehicle there, restore the stored weather, and return
the spawned vehicle.  The checkpoint store itself is returned unchanged —
the method never writes it. -/
def restore_checkpoint (checkpoints : List (String × SimulationCheckpoint)) (sid : String)
    (w : World) (vehicle_bp : String) :
    Option Actor × World × List (String × SimulationCheckpoint) :=
  match lookupCheckpoint checkpoints sid with
  | none => (none, w, checkpoints)
  | some ck =>
    let location : Location :=
      ⟨ck.vehicle_transform.location.x, ck.vehicle_transform.location.y,
        ck.vehicle_transform.location.z⟩
    let rotation : Rotation :=
      ⟨ck.vehicle_transform.rotation.pitch, ck.vehicle_transform.rotation.yaw,
        ck.vehicle_transform.rotation.roll⟩
    let transform : Transform := ⟨location, rotation⟩
    let sr := w.spawn_actor vehicle_bp transform
    let weather : WeatherParameters :=
      ⟨ck.weather_conditions.cloudiness, ck.weather_conditions.precipitation,
        ck.weather_conditions.sun_altitude_angle, ck.weather_conditions.wind_intensity⟩
    (some sr.2, { sr.1 with weather := weather }, checkpoints)

/-- `ErrorHandler._restore_from_checkpoint`: fails when the context lacks
the world or the vehicle blueprint; otherwise reports whether
`restore_checkpoint` produced a vehicle. -/
def restore_from_checkpoint (checkpoints : List (String × SimulationCheckpoint)) (sid : String)
    (context : Option (World × String)) : Bool :=
  match context with
  | none => false
  | some (world, vehicle_bp) =>
    (restore_checkpoint checkpoints sid world vehicle_bp).1.isSome

/-- C10: restoring from checkpoint for an experiment id with no stored
checkpoint returns the not-found result (`None`) and leaves both the
checkpoint store and the simulated world unchanged (and the dispatcher
wrapper reports failure); for an id with a stored checkpoint, restore
spawns the vehicle at exactly the stored pose — position and orientation
values unmodified — and restores the stored weather, again leaving the
store unchanged. -/
theorem C10_restore_checkpoint (checkpoints : List (String × SimulationCheckpoint))
    (sid : String) (w : World) (bp : String) (ck : SimulationCheckpoint) :
    (lookupCheckpoint checkpoints sid = none →
      restore_checkpoint checkpoints sid w bp = (none, w, checkpoints) ∧
      restore_from_checkpoint checkpoints sid (some (w, bp)) = false) ∧
    (lookupCheckpoint checkpoints sid = some ck →
      restore_checkpoint checkpoints sid w bp =
        (some ⟨bp, ck.vehicle_transform⟩,
          ⟨w.actors ++ [⟨bp, ck.vehicle_transform⟩], ck.weather_conditions⟩,
          checkpoints)) := by
  constructor
  · intro hnone
    constructor
    · simp [restore_checkpoint, hnone]
    · simp [restore_from_checkpoint, restore_checkpoint, hnone]
  · intro hsome
    simp [restore_checkpoint, hsome, World.spawn_actor]

/-- Concrete instantiation of `C10_restore_checkpoint`: an empty store
gives a not-found no-op, and a store holding a checkpoint at pose
((1, 2, 3), (4, 5, 6)) respawns the vehicle at exactly that pose. -/
theorem C10_restore_checkpoint_witness :
    restore_checkpoint [] "sim1" ⟨[], ⟨0, 0, 0, 0⟩⟩ "bp" = (none, ⟨[], ⟨0, 0, 0, 0⟩⟩, []) ∧
    restore_checkpoint
        [("sim1", ⟨"sim1", 9, ⟨⟨1, 2, 3⟩, ⟨4, 5, 6⟩⟩, [], [], ⟨7, 8, 9, 10⟩, [], []⟩)]
        "sim1" ⟨[], ⟨0, 0, 0, 0⟩⟩ "bp" =
      (some ⟨"bp", ⟨⟨1, 2, 3⟩, ⟨4, 5, 6⟩⟩⟩,
        ⟨[⟨"bp", ⟨⟨1, 2, 3⟩, ⟨4, 5, 6⟩⟩⟩], ⟨7, 8, 9, 10⟩⟩,
        [("sim1", ⟨"sim1", 9, ⟨⟨1, 2, 3⟩, ⟨4, 5, 6⟩⟩, [], [], ⟨7, 8, 9, 10⟩, [], []⟩)]) := by
  constructor
  · exact (C10_restore_checkpoint [] "sim1" ⟨[], ⟨0, 0, 0, 0⟩⟩ "bp"
      ⟨"sim1", 9, ⟨⟨1, 2, 3⟩, ⟨4, 5, 6⟩⟩, [], [], ⟨7, 8, 9, 10⟩, [], []⟩ |>.1 rfl).1
  · simpa using C10_restore_checkpoint
      [("sim1", ⟨"sim1", 9, ⟨⟨1, 2, 3⟩, ⟨4, 5, 6⟩⟩, [], [], ⟨7, 8, 9, 10⟩, [], []⟩)]
      "sim1" ⟨[], ⟨0, 0, 0, 0⟩⟩ "bp"
      ⟨"sim1", 9, ⟨⟨1, 2, 3⟩, ⟨4, 5, 6⟩⟩, [], [], ⟨7, 8, 9, 10⟩, [], []⟩ |>.2 (by simp [lookupCheckpoint])

/-! ## Workflow orchestrator (workflow_orchestrator.py) -/

/-- Enum `WorkflowPhase` of workflow_orchestrator.py. -/
inductive WorkflowPhase
  | initialization
  | carla_setup
  | dreamer_setup
  | simulation_execution
  | result_processing
  | cleanup
  | completed
  | failed
deriving DecidableEq, Repr

/-- Position of a phase in the required order (`failed` is the parallel
terminal state, placed last). -/
def WorkflowPhase.idx : WorkflowPhase → Nat
  | .initialization => 0
  | .carla_setup => 1
  | .dreamer_setup => 2
  | .simulation_execution => 3
  | .result_processing => 4
  | .cleanup => 5
  | .completed => 6
  | .failed => 7

/-- The part of `CarlaConfig` (shared/schemas/experiment.py) that the
orchestrator reads: the simulation time budget (an `int` field). -/
structure CarlaConfig where
  simulation_time : Int
deriving DecidableEq, Repr

/-- The part of `DreamerConfig` the orchestrator reads: the model path. -/
structure DreamerConfig where
  model_path : String
deriving DecidableEq, Repr

/-- `ExperimentConfig`: the sub-configs are optional because
`_validate_experiment_config` checks their presence (`if not
config.carla_config`). -/
structure ExperimentConfig where
  experiment_id : String
  carla_config : Option CarlaConfig
  dreamer_config : Option DreamerConfig
deriving DecidableEq, Repr

/-- The five `ValueError` raises of `_validate_experiment_config`, in source
order. -/
inductive ConfigError
  | missing_experiment_id
  | missing_carla_config
  | missing_dreamer_config
  | nonpositive_simulation_time
  | missing_model_path
deriving DecidableEq, Repr

/-- `WorkflowOrchestrator._validate_experiment_config`: checks in source
order, raising (returning) the first violated condition, `none` when the
configuration is valid.  The function reads only the config — it performs
no external call. -/
def validate_experiment_config (c : ExperimentConfig) : Option ConfigError :=
  if c.experiment_id = "" then some .missing_experiment_id
  else
    match c.carla_config with
    | none => some .missing_carla_config
    | some cc =>
      match c.dreamer_config with
      | none => some .missing_dreamer_config
      | some dc =>
        if cc.simulation_time ≤ 0 then some .nonpositive_simulation_time
        else if dc.model_path = "" then some .missing_model_path
        else none

/-- Externally visible actions of the orchestrator, in the order they are
issued: database writes, pub/sub notifications, and service-client calls. -/
inductive Effect
  | db_update_phase (experiment_id : String) (phase : WorkflowPhase)
  | db_update_result (experiment_id : String) (message : String)
  | db_store_metrics (experiment_id : String)
  | db_store_summary (experiment_id : String)
  | publish (experiment_id : String) (event : String)
  | init_carla (experiment_id : String)
  | init_dreamer (experiment_id : String)
  | start_carla (session : String)
  | submit_results (experiment_id : String)
  | stop_carla (session : String)
  | release_dreamer (session : String)
deriving DecidableEq, Repr

/-- Class `WorkflowState` of workflow_orchestrator.py (timestamps, metrics
and artifact payloads omitted — no claim reads them). -/
structure WState where
  experiment_id : String
  config : ExperimentConfig
  current_phase : WorkflowPhase
  carla_session_id : Option String
  dreamer_session_id : Option String
  error_count : Nat
  retry_count : Nat
deriving DecidableEq, Repr

/-- `WorkflowState.__init__`. -/
def WState.init (eid : String) (cfg : ExperimentConfig) : WState :=
  ⟨eid, cfg, .initialization, none, none, 0, 0⟩

/-- Oracle for every external call the workflow makes: whether each setup
call succeeds, the session ids the service client returns, the
success/failure of each simulation-loop iteration, the iteration index
from which the cancellation flag is observed set, and the outcomes of
result processing and cleanup. -/
structure Env where
  carla_setup_ok : Bool
  carla_session : String
  dreamer_setup_ok : Bool
  dreamer_session : String
  sim_start_ok : Bool
  loop_outcomes : List Bool
  cancel_at : Option Nat
  result_ok : Bool
  cleanup_ok : Bool
deriving DecidableEq, Repr

/-- Why `_run_simulation_loop` stopped: the while-condition expired, the
cancellation `break`, or the `raise` after too many step errors. -/
inductive LoopExit
  | time_budget
  | cancelled
  | too_many_errors
deriving DecidableEq, Repr

/-- Result of `_run_simulation_loop`: how it stopped, `step_count`, the
final per-workflow `error_count`, and how many iterations started. -/
structure LoopOutcome where
  exit : LoopExit
  step_count : Nat
  error_count : Nat
  iterations_run : Nat
deriving DecidableEq, Repr

/-- Whether `state.is_cancelled` reads true at iteration `i` (the flag is
set once and stays set; `cancel_at = some k` means it is set before
iteration `k` starts). -/
def cancelFlagSet (cancel_at : Option Nat) (i : Nat) : Bool :=
  match cancel_at with
  | none => false
  | some k => decide (k ≤ i)

/-- `WorkflowOrchestrator._run_simulation_loop`.  The wall-clock while
condition is modelled by the fuel list `outs` (one entry per iteration the
time budget admits; `true` = all four service calls of the iteration
succeed).  Each iteration first checks the cancellation flag and breaks;
a successful iteration increments `step_count`; a failing iteration
increments `error_count`, aborts with a raise once it exceeds 10, and
otherwise skips to the next iteration (`continue`). -/
def simLoop : List Bool → Nat → Nat → Nat → Option Nat → LoopOutcome
  | [], i, sc, ec, _ => ⟨.time_budget, sc, ec, i⟩
  | ok :: rest, i, sc, ec, cancel_at =>
    if cancelFlagSet cancel_at i then ⟨.cancelled, sc, ec, i⟩
    else if ok then simLoop rest (i + 1) (sc + 1) ec cancel_at
    else if 10 < ec + 1 then ⟨.too_many_errors, sc, ec + 1, i + 1⟩
    else simLoop rest (i + 1) sc (ec + 1) cancel_at

/-- `f"Error in {phase} phase: ..."`, the message `_handle_phase_error`
writes and the phase re-raises. -/
def phaseErrorMessage (phase_name : String) : String :=
  "Error in " ++ phase_name ++ " phase"

/-- `WorkflowOrchestrator._update_workflow_phase`: set `current_phase` and
write it to the database. -/
def update_workflow_phase (s : WState) (p : WorkflowPhase) : WState × List Effect :=
  ({ s with current_phase := p }, [Effect.db_update_phase s.experiment_id p])

/-- `WorkflowOrchestrator._handle_phase_error`: bump `error_count`, publish
the phase-error event, bump `retry_count` when below `settings.max_retries`
(followed in the source only by a sleep — no retry is performed), and
write the error message to the database. -/
def handle_phase_error (max_retries : Nat) (s : WState) (phase_name : String) :
    WState × List Effect :=
  let s1 := { s with error_count := s.error_count + 1 }
  let rc := if s1.retry_count < max_retries then s1.retry_count + 1 else s1.retry_count
  let s2 := { s1 with retry_count := rc }
  (s2, [Effect.publish s.experiment_id "workflow_phase_error",
        Effect.db_update_result s.experiment_id (phaseErrorMessage phase_name)])

/-- `WorkflowOrchestrator._execute_initialization_phase`: write the phase,
then validate the config; on a validation error run `_handle_phase_error`
and re-raise, otherwise publish the phase-started event. -/
def initialization_phase (max_retries : Nat) (s : WState) :
    WState × List Effect × Option String :=
  let u := update_workflow_phase s .initialization
  match validate_experiment_config u.1.config with
  | some _ =>
    let he := handle_phase_error max_retries u.1 "initialization"
    (he.1, u.2 ++ he.2, some (phaseErrorMessage "initialization"))
  | none =>
    (u.1, u.2 ++ [Effect.publish s.experiment_id "workflow_phase_started"], none)

/-- `WorkflowOrchestrator._execute_carla_setup_phase`: write the phase, call
`initialize_carla_simulation` (recording the returned session id on
success), and on any error run `_handle_phase_error` and re-raise. -/
def carla_setup_phase (max_retries : Nat) (env : Env) (s : WState) :
    WState × List Effect × Option String :=
  let u := update_workflow_phase s .carla_setup
  if env.carla_setup_ok then
    let s2 := { u.1 with carla_session_id := some env.carla_session }
    (s2, u.2 ++ [Effect.init_carla s.experiment_id,
      Effect.publish s.experiment_id "carla_setup_completed"], none)
  else
    let he := handle_phase_error max_retries u.1 "carla_setup"
    (he.1, u.2 ++ [Effect.init_carla s.experiment_id] ++ he.2,
      some (phaseErrorMessage "carla_setup"))

/-- `WorkflowOrchestrator._execute_dreamer_setup_phase`, mirror of the CARLA
setup phase for the decision-model session. -/
def dreamer_setup_phase (max_retries : Nat) (env : Env) (s : WState) :
    WState × List Effect × Option String :=
  let u := update_workflow_phase s .dreamer_setup
  if env.dreamer_setup_ok then
    let s2 := { u.1 with dreamer_session_id := some env.dreamer_session }
    (s2, u.2 ++ [Effect.init_dreamer s.experiment_id,
      Effect.publish s.experiment_id "dreamer_setup_completed"], none)
  else
    let he := handle_phase_error max_retries u.1 "dreamer_setup"
    (he.1, u.2 ++ [Effect.init_dreamer s.experiment_id] ++ he.2,
      some (phaseErrorMessage "dreamer_setup"))

/-- `WorkflowOrchestrator._execute_simulation_phase`: write the phase, start
the CARLA simulation, run `_run_simulation_loop`; a loop abort (the
too-many-errors raise) is handled by `_handle_phase_error` and re-raised,
while a time-budget or cancellation exit completes the phase normally. -/
def simulation_phase (max_retries : Nat) (env : Env) (s : WState) :
    WState × List Effect × Option String × Option LoopOutcome :=
  let u := update_workflow_phase s .simulation_execution
  if env.sim_start_ok then
    let lo := simLoop env.loop_outcomes 0 0 u.1.error_count env.cancel_at
    let s2 := { u.1 with error_count := lo.error_count }
    match lo.exit with
    | .too_many_errors =>
      let he := handle_phase_error max_retries s2 "simulation_execution"
      (he.1, u.2 ++ [Effect.start_carla (u.1.carla_session_id.getD "")] ++ he.2,
        some (phaseErrorMessage "simulation_execution"), some lo)
    | .time_budget =>
      (s2, u.2 ++ [Effect.start_carla (u.1.carla_session_id.getD ""),
        Effect.publish s.experiment_id "simulation_completed"], none, some lo)
    | .cancelled =>
      (s2, u.2 ++ [Effect.start_carla (u.1.carla_session_id.getD ""),
        Effect.publish s.experiment_id "simulation_completed"], none, some lo)
  else
    let he := handle_phase_error max_retries u.1 "simulation_execution"
    (he.1, u.2 ++ [Effect.start_carla (u.1.carla_session_id.getD "")] ++ he.2,
      some (phaseErrorMessage "simulation_execution"), none)

/-- `WorkflowOrchestrator._execute_result_processing_phase`: write the
phase, store metrics and summary, submit results, publish completion; on
any error run `_handle_phase_error` and re-raise. -/
def result_processing_phase (max_retries : Nat) (env : Env) (s : WState) :
    WState × List Effect × Option String :=
  let u := update_workflow_phase s .result_processing
  if env.result_ok then
    (u.1, u.2 ++ [Effect.db_store_metrics s.experiment_id,
      Effect.db_store_summary s.experiment_id,
      Effect.submit_results s.experiment_id,
      Effect.publish s.experiment_id "result_processing_completed"], none)
  else
    let he := handle_phase_error max_retries u.1 "result_processing"
    (he.1, u.2 ++ he.2, some (phaseErrorMessage "result_processing"))

/-- `WorkflowOrchestrator._execute_cleanup_phase`: write the phase, stop the
CARLA session and release the decision-model session when recorded, publish
completion; an exception anywhere in the body is caught and only logged —
the phase never propagates an error (`env.cleanup_ok = false` models a
raise at the first release call). -/
def cleanup_phase (env : Env) (s : WState) : WState × List Effect :=
  let u := update_workflow_phase s .cleanup
  let stop_c : List Effect :=
    match u.1.carla_session_id with
    | some c => [Effect.stop_carla c]
    | none => []
  if env.cleanup_ok then
    let rel_d : List Effect :=
      match u.1.dreamer_session_id with
      | some d => [Effect.release_dreamer d]
      | none => []
    (u.1, u.2 ++ stop_c ++ rel_d ++ [Effect.publish s.experiment_id "cleanup_completed"])
  else
    (u.1, u.2 ++ stop_c)

/-- `WorkflowOrchestrator._handle_workflow_failure`: write the failed status
and error message, publish the failure event, then attempt the cleanup
phase once (its own errors are only logged). -/
def handle_workflow_failure (env : Env) (s : WState) (msg : String) : WState × List Effect :=
  let c := cleanup_phase env s
  (c.1, [Effect.db_update_result s.experiment_id msg,
    Effect.publish s.experiment_id "workflow_failed"] ++ c.2)

/-- Terminal outcome of `execute_experiment_workflow`. -/
inductive WOutcome
  | completed
  | failed (message : String)
deriving DecidableEq, Repr

/-- Result of one workflow run: terminal outcome, ordered effect trace, the
simulation-loop outcome when the loop ran, and the final in-memory state. -/
structure WorkflowResult where
  outcome : WOutcome
  effects : List Effect
  loop_outcome : Option LoopOutcome
  final_state : WState
deriving DecidableEq, Repr

/-- The `except` branch of `execute_experiment_workflow`: set
`current_phase = FAILED` and run `_handle_workflow_failure`. -/
def finish_failed (env : Env) (s : WState) (msg : String) (eff : List Effect)
    (lo : Option LoopOutcome) : WorkflowResult :=
  let s1 := { s with current_phase := .failed }
  let hf := handle_workflow_failure env s1 msg
  ⟨.failed msg, eff ++ hf.2, lo, hf.1⟩

/-- `WorkflowOrchestrator.execute_experiment_workflow`: run the six phases
in order; the first phase error is caught by the outer `except`, which
marks the workflow failed and attempts cleanup; the success path ends by
setting and writing `COMPLETED`. -/
def execute_experiment_workflow (max_retries : Nat) (env : Env) (eid : String)
    (cfg : ExperimentConfig) : WorkflowResult :=
  let s0 := WState.init eid cfg
  match initialization_phase max_retries s0 with
  | (s1, e1, some msg) => finish_failed env s1 msg e1 none
  | (s1, e1, none) =>
    match carla_setup_phase max_retries env s1 with
    | (s2, e2, some msg) => finish_failed env s2 msg (e1 ++ e2) none
    | (s2, e2, none) =>
      match dreamer_setup_phase max_retries env s2 with
      | (s3, e3, some msg) => finish_failed env s3 msg (e1 ++ e2 ++ e3) none
      | (s3, e3, none) =>
        match simulation_phase max_retries env s3 with
        | (s4, e4, some msg, lo) => finish_failed env s4 msg (e1 ++ e2 ++ e3 ++ e4) lo
        | (s4, e4, none, lo) =>
          match result_processing_phase max_retries env s4 with
          | (s5, e5, some msg) => finish_failed env s5 msg (e1 ++ e2 ++ e3 ++ e4 ++ e5) lo
          | (s5, e5, none) =>
            let c := cleanup_phase env s5
            let u := update_workflow_phase c.1 .completed
            ⟨.completed, e1 ++ e2 ++ e3 ++ e4 ++ e5 ++ c.2 ++ u.2, lo, u.1⟩

/-- The sequence of phases written to the database
(`update_experiment_phase` calls), in order. -/
def phaseUpdates : List Effect → List WorkflowPhase
  | [] => []
  | Effect.db_update_phase _ p :: rest => p :: phaseUpdates rest
  | _ :: rest => phaseUpdates rest

/-- Strict forward monotonicity of a phase sequence. -/
def phasesForward : List WorkflowPhase → Bool
  | [] => true
  | [_] => true
  | a :: b :: rest => decide (a.idx < b.idx) && phasesForward (b :: rest)

/-- Occurrences of a phase in a phase sequence. -/
def countPhase (l : List WorkflowPhase) (p : WorkflowPhase) : Nat :=
  (l.filter (fun q => q == p)).length

/-- Session-allocating / simulation-driving service-client effects. -/
def isSessionEffect : Effect → Bool
  | .init_carla _ => true
  | .init_dreamer _ => true
  | .start_carla _ => true
  | _ => false

theorem phaseUpdates_append (a b : List Effect) :
    phaseUpdates (a ++ b) = phaseUpdates a ++ phaseUpdates b := by
  induction a with
  | nil => simp [phaseUpdates]
  | cons x rest ih => cases x <;> simp [phaseUpdates, ih]

theorem phaseUpdates_initialization (m : Nat) (s : WState) :
    phaseUpdates (initialization_phase m s).2.1 = [.initialization] := by
  rcases hv : validate_experiment_config s.config with _ | e <;>
    simp [initialization_phase, update_workflow_phase, handle_phase_error, hv,
      phaseUpdates_append, phaseUpdates]

theorem phaseUpdates_carla_setup (m : Nat) (env : Env) (s : WState) :
    phaseUpdates (carla_setup_phase m env s).2.1 = [.carla_setup] := by
  cases hok : env.carla_setup_ok <;>
    simp [carla_setup_phase, update_workflow_phase, handle_phase_error, hok,
      phaseUpdates_append, phaseUpdates]

theorem phaseUpdates_dreamer_setup (m : Nat) (env : Env) (s : WState) :
    phaseUpdates (dreamer_setup_phase m env s).2.1 = [.dreamer_setup] := by
  cases hok : env.dreamer_setup_ok <;>
    simp [dreamer_setup_phase, update_workflow_phase, handle_phase_error, hok,
      phaseUpdates_append, phaseUpdates]

theorem phaseUpdates_simulation (m : Nat) (env : Env) (s : WState) :
    phaseUpdates (simulation_phase m env s).2.1 = [.simulation_execution] := by
  cases hok : env.sim_start_ok <;>
    rcases hx : (simLoop env.loop_outcomes 0 0 s.error_count env.cancel_at).exit with _ | _ | _ <;>
    simp [simulation_phase, update_workflow_phase, handle_phase_error, hok, hx,
      phaseUpdates_append, phaseUpdates]

theorem phaseUpdates_result_processing (m : Nat) (env : Env) (s : WState) :
    phaseUpdates (result_processing_phase m env s).2.1 = [.result_processing] := by
  cases hok : env.result_ok <;>
    simp [result_processing_phase, update_workflow_phase, handle_phase_error, hok,
      phaseUpdates_append, phaseUpdates]

theorem phaseUpdates_cleanup (env : Env) (s : WState) :
    phaseUpdates (cleanup_phase env s).2 = [.cleanup] := by
  cases hok : env.cleanup_ok <;>
    rcases hc : s.carla_session_id with _ | c <;>
    rcases hd : s.dreamer_session_id with _ | d <;>
    simp [cleanup_phase, update_workflow_phase, hok, hc, hd,
      phaseUpdates_append, phaseUpdates]

theorem phaseUpdates_failure (env : Env) (s : WState) (msg : String) :
    phaseUpdates (handle_workflow_failure env s msg).2 = [.cleanup] := by
  simp [handle_workflow_failure, phaseUpdates_append, phaseUpdates, phaseUpdates_cleanup]

theorem phaseUpdates_finish_failed (env : Env) (s : WState) (msg : String)
    (eff : List Effect) (lo : Option LoopOutcome) :
    phaseUpdates (finish_failed env s msg eff lo).effects =
      phaseUpdates eff ++ [.cleanup] := by
  simp [finish_failed, phaseUpdates_append, phaseUpdates_failure]

theorem execute_phaseUpdates_cases (m : Nat) (env : Env) (eid : String)
    (cfg : ExperimentConfig) :
    phaseUpdates (execute_experiment_workflow m env eid cfg).effects =
        [.initialization, .cleanup] ∨
    phaseUpdates (execute_experiment_workflow m env eid cfg).effects =
        [.initialization, .carla_setup, .cleanup] ∨
    phaseUpdates (execute_experiment_workflow m env eid cfg).effects =
        [.initialization, .carla_setup, .dreamer_setup, .cleanup] ∨
    phaseUpdates (execute_experiment_workflow m env eid cfg).effects =
        [.initialization, .carla_setup, .dreamer_setup, .simulation_execution, .cleanup] ∨
    phaseUpdates (execute_experiment_workflow m env eid cfg).effects =
        [.initialization, .carla_setup, .dreamer_setup, .simulation_execution,
          .result_processing, .cleanup] ∨
    phaseUpdates (execute_experiment_workflow m env eid cfg).effects =
        [.initialization, .carla_setup, .dreamer_setup, .simulation_execution,
          .result_processing, .cleanup, .completed] := by
  simp only [execute_experiment_workflow]
  rcases h1 : initialization_phase m (WState.init eid cfg) with ⟨s1, e1, err1⟩
  have p1 : phaseUpdates e1 = [.initialization] := by
    have h := phaseUpdates_initialization m (WState.init eid cfg)
    rw [h1] at h
    exact h
  cases err1 with
  | some msg =>
    simp only [h1]
    exact Or.inl (by simp [phaseUpdates_finish_failed, p1])
  | none =>
    simp only [h1]
    rcases h2 : carla_setup_phase m env s1 with ⟨s2, e2, err2⟩
    have p2 : phaseUpdates e2 = [.carla_setup] := by
      have h := phaseUpdates_carla_setup m env s1
      rw [h2] at h
      exact h
    cases err2 with
    | some msg =>
      simp only [h2]
      exact Or.inr (Or.inl (by simp [phaseUpdates_finish_failed, phaseUpdates_append, p1, p2]))
    | none =>
      simp only [h2]
      rcases h3 : dreamer_setup_phase m env s2 with ⟨s3, e3, err3⟩
      have p3 : phaseUpdates e3 = [.dreamer_setup] := by
        have h := phaseUpdates_dreamer_setup m env s2
        rw [h3] at h
        exact h
      cases err3 with
      | some msg =>
        simp only [h3]
        exact Or.inr (Or.inr (Or.inl
          (by simp [phaseUpdates_finish_failed, phaseUpdates_append, p1, p2, p3])))
      | none =>
        simp only [h3]
        rcases h4 : simulation_phase m env s3 with ⟨s4, e4, err4, lo4⟩
        have p4 : phaseUpdates e4 = [.simulation_execution] := by
          have h := phaseUpdates_simulation m env s3
          rw [h4] at h
          exact h
        cases err4 with
        | some msg =>
          simp only [h4]
          exact Or.inr (Or.inr (Or.inr (Or.inl
            (by simp [phaseUpdates_finish_failed, phaseUpdates_append, p1, p2, p3, p4]))))
        | none =>
          simp only [h4]
          rcases h5 : result_processing_phase m env s4 with ⟨s5, e5, err5⟩
          have p5 : phaseUpdates e5 = [.result_processing] := by
            have h := phaseUpdates_result_processing m env s4
            rw [h5] at h
            exact h
          cases err5 with
          | some msg =>
            simp only [h5]
            exact Or.inr (Or.inr (Or.inr (Or.inr (Or.inl
              (by simp [phaseUpdates_finish_failed, phaseUpdates_append, p1, p2, p3, p4, p5])))))
          | none =>
            simp only [h5]
            exact Or.inr (Or.inr (Or.inr (Or.inr (Or.inr
              (by simp [phaseUpdates_append, p1, p2, p3, p4, p5, phaseUpdates_cleanup,
                update_workflow_phase, phaseUpdates])))))

theorem carla_setup_ignores_cleanup (m : Nat) (co : Bool) (cs : String) (dok : Bool)
    (ds : String) (so : Bool) (lo : List Bool) (ca : Option Nat) (ro ko b : Bool)
    (s : WState) :
    carla_setup_phase m ⟨co, cs, dok, ds, so, lo, ca, ro, b⟩ s =
      carla_setup_phase m ⟨co, cs, dok, ds, so, lo, ca, ro, ko⟩ s := by
  cases co <;> rfl

theorem dreamer_setup_ignores_cleanup (m : Nat) (co : Bool) (cs : String) (dok : Bool)
    (ds : String) (so : Bool) (lo : List Bool) (ca : Option Nat) (ro ko b : Bool)
    (s : WState) :
    dreamer_setup_phase m ⟨co, cs, dok, ds, so, lo, ca, ro, b⟩ s =
      dreamer_setup_phase m ⟨co, cs, dok, ds, so, lo, ca, ro, ko⟩ s := by
  cases dok <;> rfl

theorem simulation_ignores_cleanup (m : Nat) (co : Bool) (cs : String) (dok : Bool)
    (ds : String) (so : Bool) (lo : List Bool) (ca : Option Nat) (ro ko b : Bool)
    (s : WState) :
    simulation_phase m ⟨co, cs, dok, ds, so, lo, ca, ro, b⟩ s =
      simulation_phase m ⟨co, cs, dok, ds, so, lo, ca, ro, ko⟩ s := by
  cases so <;> rfl

theorem result_ignores_cleanup (m : Nat) (co : Bool) (cs : String) (dok : Bool)
    (ds : String) (so : Bool) (lo : List Bool) (ca : Option Nat) (ro ko b : Bool)
    (s : WState) :
    result_processing_phase m ⟨co, cs, dok, ds, so, lo, ca, ro, b⟩ s =
      result_processing_phase m ⟨co, cs, dok, ds, so, lo, ca, ro, ko⟩ s := by
  cases ro <;> rfl

theorem outcome_ignores_cleanup (m : Nat) (co : Bool) (cs : String) (dok : Bool)
    (ds : String) (so : Bool) (lo : List Bool) (ca : Option Nat) (ro ko b : Bool)
    (eid : String) (cfg : ExperimentConfig) :
    (execute_experiment_workflow m ⟨co, cs, dok, ds, so, lo, ca, ro, b⟩ eid cfg).outcome =
      (execute_experiment_workflow m ⟨co, cs, dok, ds, so, lo, ca, ro, ko⟩ eid cfg).outcome := by
  simp only [execute_experiment_workflow]
  rcases h1 : initialization_phase m (WState.init eid cfg) with ⟨s1, e1, err1⟩
  cases err1 with
  | some msg => rfl
  | none =>
    dsimp only
    rw [carla_setup_ignores_cleanup m co cs dok ds so lo ca ro ko b s1]
    rcases h2 : carla_setup_phase m ⟨co, cs, dok, ds, so, lo, ca, ro, ko⟩ s1 with ⟨s2, e2, err2⟩
    cases err2 with
    | some msg => rfl
    | none =>
      dsimp only
      rw [dreamer_setup_ignores_cleanup m co cs dok ds so lo ca ro ko b s2]
      rcases h3 : dreamer_setup_phase m ⟨co, cs, dok, ds, so, lo, ca, ro, ko⟩ s2 with ⟨s3, e3, err3⟩
      cases err3 with
      | some msg => rfl
      | none =>
        dsimp only
        rw [simulation_ignores_cleanup m co cs dok ds so lo ca ro ko b s3]
        rcases h4 : simulation_phase m ⟨co, cs, dok, ds, so, lo, ca, ro, ko⟩ s3 with ⟨s4, e4, err4, lo4⟩
        cases err4 with
        | some msg => rfl
        | none =>
          dsimp only
          rw [result_ignores_cleanup m co cs dok ds so lo ca ro ko b s4]
          rcases h5 : result_processing_phase m ⟨co, cs, dok, ds, so, lo, ca, ro, ko⟩ s4 with ⟨s5, e5, err5⟩
          cases err5 with
          | some msg => rfl
          | none => rfl

/-- C9: every workflow — succeeding or failing — enters the Cleanup phase
exactly once, and a failure inside Cleanup (a failing session release,
modelled by `cleanup_ok = false`) never changes the workflow's terminal
outcome: Cleanup errors are swallowed after logging and cannot prevent the
workflow from reaching its terminal state. -/
theorem C9_cleanup_swallowed (m : Nat) (env : Env) (eid : String) (cfg : ExperimentConfig)
    (b : Bool) :
    countPhase (phaseUpdates (execute_experiment_workflow m env eid cfg).effects) .cleanup = 1 ∧
    (execute_experiment_workflow m { env with cleanup_ok := b } eid cfg).outcome =
      (execute_experiment_workflow m env eid cfg).outcome := by
  constructor
  · rcases execute_phaseUpdates_cases m env eid cfg with h | h | h | h | h | h <;> rw [h] <;> rfl
  · rcases env with ⟨co, cs, dok, ds, so, lo, ca, ro, ko⟩
    exact outcome_ignores_cleanup m co cs dok ds so lo ca ro ko b eid cfg

/-- C2 (corrected): phase transitions are strictly forward — the sequence
of phases written to the database is strictly increasing in the phase
order, so no phase is ever entered twice: in particular a phase that
raises is never retried, for any retry budget and any environment. -/
theorem C2_forward_no_retry (m : Nat) (env : Env) (eid : String) (cfg : ExperimentConfig) :
    phasesForward (phaseUpdates (execute_experiment_workflow m env eid cfg).effects) = true ∧
    (∀ p, countPhase (phaseUpdates (execute_experiment_workflow m env eid cfg).effects) p ≤ 1) := by
  rcases execute_phaseUpdates_cases m env eid cfg with h | h | h | h | h | h <;>
    rw [h] <;>
    exact ⟨by decide, fun p => by cases p <;> decide⟩

/-- Counterexample to C2 as stated: with the default retry budget
`settings.max_retries = 3` available and the CARLA-setup phase failing
once, the orchestrator does not retry the phase — the phase is entered
exactly once, `retry_count` is bumped to 1 by `_handle_phase_error`
(followed only by a sleep), and the workflow goes straight to the failed
outcome. -/
theorem C2_no_retry_counterexample :
    (execute_experiment_workflow 3 ⟨false, "cs", true, "ds", true, [true], none, true, true⟩
        "e1" ⟨"e1", some ⟨300⟩, some ⟨"m"⟩⟩).outcome =
      .failed (phaseErrorMessage "carla_setup") ∧
    countPhase (phaseUpdates (execute_experiment_workflow 3
        ⟨false, "cs", true, "ds", true, [true], none, true, true⟩
        "e1" ⟨"e1", some ⟨300⟩, some ⟨"m"⟩⟩).effects) .carla_setup = 1 ∧
    (execute_experiment_workflow 3 ⟨false, "cs", true, "ds", true, [true], none, true, true⟩
        "e1" ⟨"e1", some ⟨300⟩, some ⟨"m"⟩⟩).final_state.retry_count = 1 := by
  decide

theorem execute_invalid (m : Nat) (env : Env) (eid : String) (cfg : ExperimentConfig)
    (e : ConfigError) (hv : validate_experiment_config cfg = some e) :
    (execute_experiment_workflow m env eid cfg).effects =
      [Effect.db_update_phase eid .initialization,
       Effect.publish eid "workflow_phase_error",
       Effect.db_update_result eid (phaseErrorMessage "initialization"),
       Effect.db_update_result eid (phaseErrorMessage "initialization"),
       Effect.publish eid "workflow_failed",
       Effect.db_update_phase eid .cleanup] ++
      (if env.cleanup_ok then [Effect.publish eid "cleanup_completed"] else []) ∧
    (execute_experiment_workflow m env eid cfg).outcome =
      .failed (phaseErrorMessage "initialization") := by
  cases hko : env.cleanup_ok <;>
    simp [execute_experiment_workflow, initialization_phase, update_workflow_phase,
      WState.init, hv, handle_phase_error, finish_failed, handle_workflow_failure,
      cleanup_phase, hko]

theorem validate_none_iff (cfg2 : ExperimentConfig) :
    validate_experiment_config cfg2 = none ↔
      (cfg2.experiment_id ≠ "" ∧
        (∃ cc, cfg2.carla_config = some cc ∧ 0 < cc.simulation_time) ∧
        (∃ dc, cfg2.dreamer_config = some dc ∧ dc.model_path ≠ "")) := by
  rcases cfg2 with ⟨id2, oc, od⟩
  constructor
  · intro h
    by_cases hid : id2 = ""
    · simp [validate_experiment_config, hid] at h
    · rcases oc with _ | cc
      · simp [validate_experiment_config, hid] at h
      · rcases od with _ | dc
        · simp [validate_experiment_config, hid] at h
        · by_cases hst : cc.simulation_time ≤ 0
          · simp [validate_experiment_config, hid, hst] at h
          · by_cases hmp : dc.model_path = ""
            · simp [validate_experiment_config, hid, hst, hmp] at h
            · exact ⟨hid, ⟨cc, rfl, by omega⟩, ⟨dc, rfl, hmp⟩⟩
  · rintro ⟨hid, ⟨cc, hoc, hst⟩, ⟨dc, hod, hmp⟩⟩
    subst hoc
    subst hod
    have hst2 : ¬ cc.simulation_time ≤ 0 := by omega
    simp [validate_experiment_config, hid, hst2, hmp]

/-- C5 (corrected): an invalid configuration (empty experiment id, missing
backend parameters, non-positive time budget, or empty model reference —
exactly the five checks of `_validate_experiment_config`) makes the
workflow fail in the initialization phase before any backend session is
allocated or any simulation call is made; but the validation is not
reached side-effect-free: the initialization-phase entry writes the
current phase to the database before validating (the first effect of the
trace), and the error path publishes a phase-error event and writes the
error message. -/
theorem C5_invalid_config (m : Nat) (env : Env) (eid : String) (cfg : ExperimentConfig)
    (e : ConfigError) (hv : validate_experiment_config cfg = some e) :
    (execute_experiment_workflow m env eid cfg).outcome =
      .failed (phaseErrorMessage "initialization") ∧
    ((execute_experiment_workflow m env eid cfg).effects.filter isSessionEffect) = [] ∧
    (execute_experiment_workflow m env eid cfg).effects.head? =
      some (.db_update_phase eid .initialization) ∧
    (∀ cfg2 : ExperimentConfig, validate_experiment_config cfg2 = none ↔
      (cfg2.experiment_id ≠ "" ∧
        (∃ cc, cfg2.carla_config = some cc ∧ 0 < cc.simulation_time) ∧
        (∃ dc, cfg2.dreamer_config = some dc ∧ dc.model_path ≠ ""))) := by
  refine ⟨(execute_invalid m env eid cfg e hv).2, ?_, ?_, validate_none_iff⟩
  · rw [(execute_invalid m env eid cfg e hv).1]
    cases env.cleanup_ok <;> rfl
  · rw [(execute_invalid m env eid cfg e hv).1]
    rfl

/-- Concrete instantiation of `C5_invalid_config`: an empty experiment id
fails the workflow in initialization. -/
theorem C5_invalid_config_witness :
    (execute_experiment_workflow 3 ⟨true, "cs", true, "ds", true, [true], none, true, true⟩
        "" ⟨"", some ⟨300⟩, some ⟨"m"⟩⟩).outcome =
      .failed (phaseErrorMessage "initialization") :=
  (C5_invalid_config 3 ⟨true, "cs", true, "ds", true, [true], none, true, true⟩
    "" ⟨"", some ⟨300⟩, some ⟨"m"⟩⟩ .missing_experiment_id (by decide)).1

/-- Counterexample to C5 as stated ("no state is written before the error
is raised"): with an empty experiment id, the very first effect of the run
— before validation raises — is the database write of the initialization
phase, and the error path then publishes an event and writes the error
message twice before the workflow fails. -/
theorem C5_write_before_validation_counterexample :
    (execute_experiment_workflow 3 ⟨true, "cs", true, "ds", true, [true], none, true, true⟩
        "" ⟨"", some ⟨300⟩, some ⟨"m"⟩⟩).effects =
      [Effect.db_update_phase "" .initialization,
       Effect.publish "" "workflow_phase_error",
       Effect.db_update_result "" "Error in initialization phase",
       Effect.db_update_result "" "Error in initialization phase",
       Effect.publish "" "workflow_failed",
       Effect.db_update_phase "" .cleanup,
       Effect.publish "" "cleanup_completed"] ∧
    validate_experiment_config ⟨"", some ⟨300⟩, some ⟨"m"⟩⟩ = some .missing_experiment_id := by
  decide

theorem simLoop_error_bound : ∀ (outs : List Bool) (i sc ec : Nat) (ca : Option Nat),
    ec ≤ 10 →
    ((simLoop outs i sc ec ca).exit = .too_many_errors →
      (simLoop outs i sc ec ca).error_count = 11) := by
  intro outs
  induction outs with
  | nil => intro i sc ec ca h hx; simp [simLoop] at hx
  | cons ok rest ih =>
    intro i sc ec ca h
    simp only [simLoop]
    by_cases hc : cancelFlagSet ca i = true
    · simp [hc]
    · simp only [hc, if_false, Bool.false_eq_true]
      cases ok with
      | false =>
        by_cases h10 : 10 < ec + 1
        · simp [h10]
          omega
        · simp only [h10, if_false, Bool.false_eq_true, if_true]
          exact ih (i + 1) sc (ec + 1) ca (by omega)
      | true =>
        simp only [if_true]
        exact ih (i + 1) (sc + 1) ec ca h

theorem simLoop_cancel_bound : ∀ (outs : List Bool) (i sc ec k : Nat),
    i ≤ k → (simLoop outs i sc ec (some k)).iterations_run ≤ k := by
  intro outs
  induction outs with
  | nil => intro i sc ec k h; simpa [simLoop] using h
  | cons ok rest ih =>
    intro i sc ec k h
    simp only [simLoop]
    by_cases hc : cancelFlagSet (some k) i = true
    · simp [hc]
      exact h
    · have hik : i < k := by
        simp [cancelFlagSet] at hc
        omega
      simp only [hc, if_false, Bool.false_eq_true]
      cases ok with
      | false =>
        by_cases h10 : 10 < ec + 1
        · simp [h10]
          omega
        · simp only [h10, if_false, Bool.false_eq_true, if_true]
          exact ih (i + 1) sc (ec + 1) k (by omega)
      | true =>
        simp only [if_true]
        exact ih (i + 1) (sc + 1) ec k (by omega)

/-- C7: in the Execution-phase hot loop an error in one iteration
increments the per-workflow error counter and causes exactly that
iteration to be skipped — the loop continues with the next iteration
without retrying the failed one and without counting a step; as soon as
the counter exceeds the fixed ceiling of 10 the loop aborts (a loop that
started with a zero counter and aborted reads exactly 11), and the abort
is reported as an error to the phase-level failure handler. -/
theorem C7_simulation_loop_errors (rest outs : List Bool) (i sc ec : Nat)
    (ca : Option Nat) (m : Nat) (env : Env) (s : WState)
    (hnc : cancelFlagSet ca i = false) :
    (10 < ec + 1 →
      simLoop (false :: rest) i sc ec ca = ⟨.too_many_errors, sc, ec + 1, i + 1⟩) ∧
    (ec + 1 ≤ 10 →
      simLoop (false :: rest) i sc ec ca = simLoop rest (i + 1) sc (ec + 1) ca) ∧
    ((simLoop outs 0 0 0 ca).exit = .too_many_errors →
      (simLoop outs 0 0 0 ca).error_count = 11) ∧
    ((simLoop env.loop_outcomes 0 0 s.error_count env.cancel_at).exit = .too_many_errors →
      env.sim_start_ok = true →
      (simulation_phase m env s).2.2.1 = some (phaseErrorMessage "simulation_execution")) := by
  refine ⟨?_, ?_, simLoop_error_bound outs 0 0 0 ca (by omega), ?_⟩
  · intro h10
    simp [simLoop, hnc, h10]
  · intro h10
    have h10f : ¬ 10 < ec + 1 := by omega
    simp [simLoop, hnc, h10f]
  · intro hx hok
    simp [simulation_phase, update_workflow_phase, hok, hx, handle_phase_error]

/-- Concrete instantiation of `C7_simulation_loop_errors`: with the counter
at 10 a further error aborts the loop at count 11; with the counter at 0 an
error only skips the iteration; eleven consecutive errors abort the loop
at count 11 and fail the surrounding simulation phase. -/
theorem C7_simulation_loop_errors_witness :
    simLoop [false] 0 0 10 none = ⟨.too_many_errors, 0, 11, 1⟩ ∧
    simLoop [false, true] 0 0 0 none = simLoop [true] 1 0 1 none ∧
    (simLoop (List.replicate 11 false) 0 0 0 none).error_count = 11 ∧
    (simulation_phase 3 ⟨true, "cs", true, "ds", true, List.replicate 11 false, none, true, true⟩
        (WState.init "e1" ⟨"e1", some ⟨300⟩, some ⟨"m"⟩⟩)).2.2.1 =
      some (phaseErrorMessage "simulation_execution") := by
  have h1 := C7_simulation_loop_errors [] [] 0 0 10 none 3
    ⟨true, "cs", true, "ds", true, [], none, true, true⟩
    (WState.init "e1" ⟨"e1", some ⟨300⟩, some ⟨"m"⟩⟩) (by decide)
  have h2 := C7_simulation_loop_errors [true] (List.replicate 11 false) 0 0 0 none 3
    ⟨true, "cs", true, "ds", true, List.replicate 11 false, none, true, true⟩
    (WState.init "e1" ⟨"e1", some ⟨300⟩, some ⟨"m"⟩⟩) (by decide)
  refine ⟨h1.1 (by omega), h2.2.1 (by omega), h2.2.2.1 (by decide), ?_⟩
  exact h2.2.2.2 (by decide) rfl

/-- C8 (corrected): when the cancellation flag is set from iteration `k`
on, the simulation loop exits at the next iteration boundary — no
iteration with index at or beyond `k` ever starts — and the workflow still
executes the Cleanup phase exactly once; but there is no cancelled
terminal state: the workflow then proceeds through ResultProcessing and
terminates in `completed`, exactly as an uncancelled run would. -/
theorem C8_cooperative_cancellation (m : Nat) (env : Env) (eid : String)
    (cfg : ExperimentConfig) (k : Nat)
    (hca : env.cancel_at = some k)
    (hv : validate_experiment_config cfg = none)
    (hc : env.carla_setup_ok = true) (hd : env.dreamer_setup_ok = true)
    (hs : env.sim_start_ok = true) (hr : env.result_ok = true)
    (hx : (simLoop env.loop_outcomes 0 0 0 (some k)).exit = .cancelled) :
    (execute_experiment_workflow m env eid cfg).outcome = .completed ∧
    (execute_experiment_workflow m env eid cfg).loop_outcome =
      some (simLoop env.loop_outcomes 0 0 0 (some k)) ∧
    (simLoop env.loop_outcomes 0 0 0 (some k)).iterations_run ≤ k ∧
    countPhase (phaseUpdates (execute_experiment_workflow m env eid cfg).effects)
      .cleanup = 1 ∧
    countPhase (phaseUpdates (execute_experiment_workflow m env eid cfg).effects)
      .result_processing = 1 := by
  rcases env with ⟨co, cs, dok, ds, so, lo, ca, ro, ko⟩
  simp only at hca hc hd hs hr hx
  subst hca
  subst hc
  subst hd
  subst hs
  subst hr
  refine ⟨?_, ?_, simLoop_cancel_bound lo 0 0 0 k (Nat.zero_le k), ?_, ?_⟩ <;>
    cases ko <;>
    simp [execute_experiment_workflow, initialization_phase, carla_setup_phase,
      dreamer_setup_phase, simulation_phase, result_processing_phase, cleanup_phase,
      handle_workflow_failure, finish_failed, handle_phase_error, update_workflow_phase,
      WState.init, hv, hx, phaseUpdates_append, phaseUpdates, countPhase]

/-- Concrete instantiation of `C8_cooperative_cancellation`: cancellation
set before iteration 1 lets iteration 0 finish, stops the loop there, still
runs Cleanup, and the run terminates `completed`. -/
theorem C8_cooperative_cancellation_witness :
    (execute_experiment_workflow 3 ⟨true, "cs", true, "ds", true, [true, true, true], some 1, true, true⟩
        "e1" ⟨"e1", some ⟨300⟩, some ⟨"m"⟩⟩).outcome = .completed ∧
    (simLoop [true, true, true] 0 0 0 (some 1)).iterations_run ≤ 1 := by
  have h := C8_cooperative_cancellation 3
    ⟨true, "cs", true, "ds", true, [true, true, true], some 1, true, true⟩
    "e1" ⟨"e1", some ⟨300⟩, some ⟨"m"⟩⟩ 1 rfl (by decide) rfl rfl rfl rfl (by decide)
  exact ⟨h.1, h.2.2.1⟩

/-- Counterexample to C8 as stated: a workflow cancelled during Execution
(flag set before iteration 0) exits the loop at once and still runs
Cleanup, but it does not end in a cancelled terminal state — it continues
through ResultProcessing and terminates `completed`, as if uncancelled
(the WorkflowPhase enum has no cancelled member). -/
theorem C8_no_cancelled_terminal_counterexample :
    (execute_experiment_workflow 3 ⟨true, "cs", true, "ds", true, [true, true], some 0, true, true⟩
        "e1" ⟨"e1", some ⟨300⟩, some ⟨"m"⟩⟩).outcome = .completed ∧
    (execute_experiment_workflow 3 ⟨true, "cs", true, "ds", true, [true, true], some 0, true, true⟩
        "e1" ⟨"e1", some ⟨300⟩, some ⟨"m"⟩⟩).loop_outcome =
      some ⟨.cancelled, 0, 0, 0⟩ ∧
    countPhase (phaseUpdates (execute_experiment_workflow 3
        ⟨true, "cs", true, "ds", true, [true, true], some 0, true, true⟩
        "e1" ⟨"e1", some ⟨300⟩, some ⟨"m"⟩⟩).effects) .result_processing = 1 := by
  decide

/-! ## Active-workflow registry under concurrent interleaving
(execute_experiment_workflow lines 78-110: `self.active_workflows[id] =
state` on entry, `del self.active_workflows[id]` in the `finally`).

Concurrent runs are modelled as interleaved atomic events: `register rid
eid` is the entry of run `rid` for experiment `eid` (a `WorkflowState` is
constructed and stored in the dict), `finish rid eid` is its `finally`
block (the run's `WorkflowState` dies and the dict entry for `eid` — if
any — is deleted).  A trace is legal when each run registers at most once
and finishes only after registering; the source contains no guard relating
different runs of the same experiment id. -/

/-- One atomic step of a workflow run against the shared registry. -/
inductive RunEvent
  | register (rid : Nat) (eid : String)
  | finish (rid : Nat) (eid : String)
deriving DecidableEq, Repr

/-- The orchestrator's shared registry: the `active_workflows` dict (one
entry per experiment id) and the set of `WorkflowState` instances
currently owned by some running execution. -/
structure OrchestratorSt where
  active_workflows : List (String × Nat)
  live_states : List (Nat × String)
deriving DecidableEq, Repr

/-- A freshly constructed orchestrator: empty dict, no live state. -/
def orchInit : OrchestratorSt := ⟨[], []⟩

/-- Dict write `m[k] = v` (replaces the unique entry for `k`, else appends). -/
def mapSet (m : List (String × Nat)) (k : String) (v : Nat) : List (String × Nat) :=
  match m with
  | [] => [(k, v)]
  | (k1, v1) :: rest =>
    if k1 = k then (k, v) :: rest else (k1, v1) :: mapSet rest k v

/-- Dict delete `del m[k]` (removes the entry for `k` when present). -/
def mapDel (m : List (String × Nat)) (k : String) : List (String × Nat) :=
  match m with
  | [] => []
  | (k1, v1) :: rest =>
    if k1 = k then rest else (k1, v1) :: mapDel rest k

/-- Dict lookup. -/
def mapGet (m : List (String × Nat)) (k : String) : Option Nat :=
  match m with
  | [] => none
  | (k1, v1) :: rest => if k1 = k then some v1 else mapGet rest k

/-- The registry after one run event: registering stores the new
`WorkflowState` under the experiment id (overwriting any existing entry)
and the instance becomes live; finishing deletes the id's dict entry —
whichever run owns it — and the finishing run's instance dies. -/
def orchStep (st : OrchestratorSt) : RunEvent → OrchestratorSt
  | .register rid eid =>
    ⟨mapSet st.active_workflows eid rid, st.live_states ++ [(rid, eid)]⟩
  | .finish rid eid =>
    ⟨mapDel st.active_workflows eid, st.live_states.filter (fun p => p.1 != rid)⟩

/-- Fold a trace of run events through the registry. -/
def orchRun (st : OrchestratorSt) : List RunEvent → OrchestratorSt
  | [] => st
  | e :: t => orchRun (orchStep st e) t

/-- Trace legality: every run id registers at most once, and finishes only
after its own register (with the same experiment id) and at most once.
Nothing in the source restricts two different runs to distinct experiment
ids, so legality does not either. -/
def legalFrom : List (Nat × String) → List Nat → List RunEvent → Bool
  | _, _, [] => true
  | regd, fins, .register rid eid :: t =>
    regd.all (fun p => p.1 != rid) && legalFrom (regd ++ [(rid, eid)]) fins t
  | regd, fins, .finish rid eid :: t =>
    regd.contains (rid, eid) && fins.all (fun r => r != rid) &&
      legalFrom regd (fins ++ [rid]) t

/-- A legal trace from the fresh registry. -/
def legalTrace (t : List RunEvent) : Bool := legalFrom [] [] t

/-- Number of live `WorkflowState` instances for one experiment id. -/
def liveCount (l : List (Nat × String)) (eid : String) : Nat :=
  (l.filter (fun p => p.2 == eid)).length

/-- Number of live `WorkflowState` instances for one experiment id in the
registry. -/
def liveFor (st : OrchestratorSt) (eid : String) : Nat :=
  liveCount st.live_states eid

/-- How many register events a trace holds for one experiment id. -/
def registersFor : List RunEvent → String → Nat
  | [], _ => 0
  | .register _ e :: rest, eid => (if e = eid then 1 else 0) + registersFor rest eid
  | .finish _ _ :: rest, eid => registersFor rest eid

/-- The key `k` does not occur in the dict. -/
def keyAbsent (k : String) : List (String × Nat) → Bool
  | [] => true
  | (k1, _) :: rest => (k1 != k) && keyAbsent k rest

/-- Keys of the dict are pairwise distinct. -/
def noDupKeys : List (String × Nat) → Bool
  | [] => true
  | (k, _) :: rest => keyAbsent k rest && noDupKeys rest

theorem mapGet_mapSet_self (k : String) (v : Nat) : ∀ (m : List (String × Nat)),
    mapGet (mapSet m k v) k = some v := by
  intro m
  induction m with
  | nil => simp [mapSet, mapGet]
  | cons kv rest ih =>
    obtain ⟨k1, v1⟩ := kv
    by_cases h : k1 = k
    · simp [mapSet, mapGet, h]
    · simp [mapSet, mapGet, h, ih]

theorem mapGet_keyAbsent (k : String) : ∀ (m : List (String × Nat)),
    keyAbsent k m = true → mapGet m k = none := by
  intro m
  induction m with
  | nil => simp [mapGet]
  | cons kv rest ih =>
    obtain ⟨k1, v1⟩ := kv
    intro h
    simp [keyAbsent] at h
    simp [mapGet, h.1]
    exact ih h.2

theorem mapGet_mapDel_self (k : String) : ∀ (m : List (String × Nat)),
    noDupKeys m = true → mapGet (mapDel m k) k = none := by
  intro m
  induction m with
  | nil => simp [mapDel, mapGet]
  | cons kv rest ih =>
    obtain ⟨k1, v1⟩ := kv
    intro hnd
    simp [noDupKeys] at hnd
    by_cases h : k1 = k
    · subst h
      simp [mapDel]
      exact mapGet_keyAbsent k1 rest hnd.1
    · simp [mapDel, mapGet, h]
      exact ih hnd.2

theorem keyAbsent_mapSet (k k1 : String) (v : Nat) (hne : ¬ k = k1) :
    ∀ (m : List (String × Nat)),
    keyAbsent k1 m = true → keyAbsent k1 (mapSet m k v) = true := by
  intro m
  induction m with
  | nil => simp [mapSet, keyAbsent]; exact hne
  | cons kv rest ih =>
    obtain ⟨k2, v2⟩ := kv
    intro hall
    simp [keyAbsent] at hall
    by_cases h : k2 = k
    · simp [mapSet, h, keyAbsent]
      exact ⟨hne, hall.2⟩
    · simp [mapSet, h, keyAbsent]
      exact ⟨hall.1, ih hall.2⟩

theorem keyAbsent_mapDel (k k1 : String) : ∀ (m : List (String × Nat)),
    keyAbsent k1 m = true → keyAbsent k1 (mapDel m k) = true := by
  intro m
  induction m with
  | nil => simp [mapDel, keyAbsent]
  | cons kv rest ih =>
    obtain ⟨k2, v2⟩ := kv
    intro hall
    simp [keyAbsent] at hall
    by_cases h : k2 = k
    · simp [mapDel, h]
      simpa [keyAbsent] using hall.2
    · simp [mapDel, h, keyAbsent]
      exact ⟨hall.1, ih hall.2⟩

theorem noDupKeys_mapSet (k : String) (v : Nat) : ∀ (m : List (String × Nat)),
    noDupKeys m = true → noDupKeys (mapSet m k v) = true := by
  intro m
  induction m with
  | nil => simp [mapSet, noDupKeys, keyAbsent]
  | cons kv rest ih =>
    obtain ⟨k1, v1⟩ := kv
    intro hnd
    simp [noDupKeys] at hnd
    by_cases h : k1 = k
    · subst h
      simp [mapSet, noDupKeys]
      exact hnd
    · simp [mapSet, h, noDupKeys]
      refine ⟨?_, ih hnd.2⟩
      have := keyAbsent_mapSet k k1 v (fun hx => h hx.symm) rest hnd.1
      simpa using this

theorem noDupKeys_mapDel (k : String) : ∀ (m : List (String × Nat)),
    noDupKeys m = true → noDupKeys (mapDel m k) = true := by
  intro m
  induction m with
  | nil => simp [mapDel, noDupKeys]
  | cons kv rest ih =>
    obtain ⟨k1, v1⟩ := kv
    intro hnd
    simp [noDupKeys] at hnd
    by_cases h : k1 = k
    · simp [mapDel, h]
      exact hnd.2
    · simp [mapDel, h, noDupKeys]
      refine ⟨?_, ih hnd.2⟩
      have := keyAbsent_mapDel k k1 rest hnd.1
      simpa using this

theorem noDupKeys_orchRun : ∀ (t : List RunEvent) (st : OrchestratorSt),
    noDupKeys st.active_workflows = true →
    noDupKeys (orchRun st t).active_workflows = true := by
  intro t
  induction t with
  | nil => intro st h; exact h
  | cons ev rest ih =>
    intro st h
    cases ev with
    | register rid eid => exact ih _ (noDupKeys_mapSet eid rid st.active_workflows h)
    | finish rid eid => exact ih _ (noDupKeys_mapDel eid st.active_workflows h)

theorem length_filter_filter_le {α : Type} (f g : α → Bool) :
    ∀ (l : List α), ((l.filter g).filter f).length ≤ (l.filter f).length := by
  intro l
  induction l with
  | nil => simp
  | cons x rest ih =>
    by_cases hg : g x = true <;> by_cases hf : f x = true <;>
      simp [hg, hf, List.filter_cons, -List.filter_filter] <;> omega

theorem live_unique : ∀ (t : List RunEvent) (st : OrchestratorSt),
    (∀ eid, liveFor st eid + registersFor t eid ≤ 1) →
    ∀ eid, liveFor (orchRun st t) eid ≤ 1 := by
  intro t
  induction t with
  | nil =>
    intro st h eid
    have hx := h eid
    simp [registersFor] at hx
    simpa [orchRun] using hx
  | cons ev rest ih =>
    intro st h eid
    cases ev with
    | register rid e =>
      refine ih _ ?_ eid
      intro e2
      have hx := h e2
      simp only [registersFor] at hx
      have hstep : liveFor (orchStep st (.register rid e)) e2 =
          liveFor st e2 + (if e = e2 then 1 else 0) := by
        by_cases he : e = e2 <;>
          simp [orchStep, liveFor, liveCount, List.filter_append, he]
      rw [hstep]
      omega
    | finish rid e =>
      refine ih _ ?_ eid
      intro e2
      have hx := h e2
      simp only [registersFor] at hx
      have hstep : liveFor (orchStep st (.finish rid e)) e2 ≤ liveFor st e2 :=
        length_filter_filter_le _ _ st.live_states
      omega

theorem filter_rid_gone (rid : Nat) : ∀ (l : List (Nat × String)),
    ((l.filter (fun p => p.1 != rid)).filter (fun p => p.1 == rid)) = [] := by
  intro l
  induction l with
  | nil => rfl
  | cons x rest ih =>
    by_cases h : x.1 = rid
    · simp [List.filter_cons, h, ih]
    · simp [List.filter_cons, h, ih]

/-- C1 (corrected): each run's entry registers exactly one `WorkflowState`
for its experiment id in the active-workflow dict (whose keys stay
pairwise distinct), and a run's exit removes that id's dict entry and its
own live instance; and provided no two runs of the same experiment id are
interleaved (at most one register per id in the trace), at most one
`WorkflowState` exists per experiment id at any time.  The orchestrator
itself contains no guard enforcing that proviso — see the counterexample. -/
theorem C1_workflow_state_registry (t : List RunEvent) (st : OrchestratorSt)
    (rid : Nat) (eid : String)
    (hnd : noDupKeys st.active_workflows = true)
    (huniq : ∀ e2, liveFor st e2 + registersFor t e2 ≤ 1) :
    ((orchStep st (.register rid eid)).live_states = st.live_states ++ [(rid, eid)] ∧
      mapGet (orchStep st (.register rid eid)).active_workflows eid = some rid) ∧
    (mapGet (orchStep st (.finish rid eid)).active_workflows eid = none ∧
      (orchStep st (.finish rid eid)).live_states.filter (fun p => p.1 == rid) = []) ∧
    noDupKeys (orchRun st t).active_workflows = true ∧
    (∀ e2, liveFor (orchRun st t) e2 ≤ 1) := by
  refine ⟨⟨rfl, mapGet_mapSet_self eid rid st.active_workflows⟩, ⟨?_, ?_⟩, ?_, ?_⟩
  · exact mapGet_mapDel_self eid st.active_workflows hnd
  · exact filter_rid_gone rid st.live_states
  · exact noDupKeys_orchRun t st hnd
  · exact live_unique t st huniq

/-- Concrete instantiation of `C1_workflow_state_registry`: a single run
registering and finishing leaves at most one live state for its id, and a
register is visible in the dict. -/
theorem C1_workflow_state_registry_witness :
    mapGet (orchStep orchInit (.register 7 "x")).active_workflows "x" = some 7 ∧
    liveFor (orchRun orchInit [RunEvent.register 5 "w", RunEvent.finish 5 "w"]) "w" ≤ 1 := by
  have h := C1_workflow_state_registry [RunEvent.register 5 "w", RunEvent.finish 5 "w"]
    orchInit 7 "x" (by decide)
    (by
      intro e2
      by_cases he : ("w" : String) = e2 <;>
        simp [liveFor, liveCount, orchInit, registersFor, he])
  exact ⟨h.1.2, h.2.2.2 "w"⟩

/-- Counterexample to C1 as stated: the source has no guard against two
concurrent runs of the same experiment id, so the legal interleaving
`register 0 "e"; register 1 "e"` leaves two `WorkflowState` instances for
"e" alive at once (the dict entry is silently overwritten), and the first
run's `finally` then deletes the dict entry that belongs to the second,
still-running run. -/
theorem C1_duplicate_run_counterexample :
    legalTrace [RunEvent.register 0 "e", RunEvent.register 1 "e"] = true ∧
    liveFor (orchRun orchInit [RunEvent.register 0 "e", RunEvent.register 1 "e"]) "e" = 2 ∧
    mapGet (orchRun orchInit
      [RunEvent.register 0 "e", RunEvent.register 1 "e"]).active_workflows "e" = some 1 ∧
    legalTrace [RunEvent.register 0 "e", RunEvent.register 1 "e", RunEvent.finish 0 "e"] = true ∧
    liveFor (orchRun orchInit
      [RunEvent.register 0 "e", RunEvent.register 1 "e", RunEvent.finish 0 "e"]) "e" = 1 ∧
    mapGet (orchRun orchInit
      [RunEvent.register 0 "e", RunEvent.register 1 "e",
        RunEvent.finish 0 "e"]).active_workflows "e" = none := by
  decide

end CarDream
